import Mathlib

/-!
Shallow embedding of the Raven UI fragment: the RetractVote context-menu
action and the ChatInput box (RetractVote.tsx), and the
AddChannelMemberModal dialog (AddChannelMemberModal.tsx).

Each component is modelled by the observable effects its handlers emit
(SDK data-fetching calls, raw fetch requests, toasts, callback
invocations, local-state updates) together with the resulting local
state.  Promise chains are modelled by passing in the resolution outcome
of each awaited promise explicitly; a chain with no catch handler whose
awaited promise rejects is recorded as an unhandled rejection.
-/

namespace Raven

/-- An HTTP request issued through the browser fetch API, as built by
ChatInput.onSubmit: method, URL, optional Authorization header, and the
JSON body modelled as a key/value list in source order. -/
structure HttpRequest where
  method : String
  url : String
  authHeader : Option String
  body : List (String × String)
deriving DecidableEq, Repr

/-- Observable effects emitted by the components.  SDK calls
(useFrappeGetCall / useFrappePostCall) carry the API path, the argument
record, and the token header they attach (the hooks in this code attach
none: they ride on the SDK-managed session). -/
inductive Effect where
  | sdkGet (path : String) (args : List (String × String)) (swrKey : String)
      (tokenHeader : Option String) : Effect
  | sdkPost (path : String) (args : List (String × String))
      (tokenHeader : Option String) : Effect
  | fetchHttp (req : HttpRequest) : Effect
  | toast (title : String) (variant : String) (duration : Nat) : Effect
  | invokeAddMessage (text : String) (user : String) : Effect
  | setText (value : String) : Effect
  | consoleLog : Effect
  | closeModal : Effect
deriving DecidableEq, Repr

/-- Effects that are network calls (SDK calls and raw fetch). -/
def Effect.isNetworkCall : Effect → Bool
  | .sdkGet _ _ _ _ => true
  | .sdkPost _ _ _ => true
  | .fetchHttp _ => true
  | _ => false

/-- Effects that are toast notifications. -/
def Effect.isToast : Effect → Bool
  | .toast _ _ _ => true
  | _ => false

/-- Network calls that mutate backend data (POST requests). -/
def Effect.isMutatingCall : Effect → Bool
  | .sdkPost _ _ _ => true
  | .fetchHttp r => r.method == "POST"
  | _ => false

/-- Resolution outcome of an awaited promise. -/
inductive PromiseOutcome where
  | resolves
  | rejects
deriving DecidableEq, Repr

/-- The poll document inside the fetched poll data; the components read
only its is_disabled flag, a Frappe Check field holding 0 or 1 (the
source tests it for truthiness). -/
structure RavenPollDoc where
  is_disabled : Nat
deriving DecidableEq, Repr

/-- Shape of the fetched poll data (the Poll type from the PollMessage
renderer): the poll document and the current user's votes.  The
components read only the length of the vote list, so votes are modelled
by their identifiers. -/
structure Poll where
  poll : RavenPollDoc
  current_user_votes : List String
deriving DecidableEq, Repr

/-- Response shape of raven.api.raven_poll.get_poll. -/
structure GetPollResponse where
  message : Poll
deriving DecidableEq, Repr

/-- The message prop of RetractVote; the component reads only its name
and poll_id fields. -/
structure Message where
  name : String
  poll_id : String
deriving DecidableEq, Repr

/-- A handler invocation trace: the effects in emission order, and
whether the promise chain the handler returns ends up rejected with no
handler attached. -/
structure Trace where
  effects : List Effect
  unhandledRejection : Bool
deriving DecidableEq, Repr

namespace RetractVote

/-- The data fetch RetractVote issues on mount:
useFrappeGetCall to raven.api.raven_poll.get_poll with the message name,
under SWR key poll_data_ ++ poll_id, with no explicit token. -/
def mountEffects (message : Message) : List Effect :=
  [Effect.sdkGet "raven.api.raven_poll.get_poll"
      [("message_id", message.name)]
      ("poll_data_" ++ message.poll_id) none]

/-- onRetractVote: one POST to raven.api.raven_poll.retract_vote with
the poll_id, then a success toast on resolution or a failure toast in
the catch handler.  The catch handler means the returned chain never
rejects unhandled. -/
def onRetractVote (message : Message) (outcome : PromiseOutcome) : Trace :=
  { effects :=
      Effect.sdkPost "raven.api.raven_poll.retract_vote"
          [("poll_id", message.poll_id)] none ::
        (match outcome with
         | PromiseOutcome.resolves => [Effect.toast "Vote retracted" "accent" 800]
         | PromiseOutcome.rejects =>
             [Effect.toast "Could not retract vote" "destructive" 800]),
    unhandledRejection := false }

/-- The rendered context-menu item. -/
structure MenuItem where
  label : String
  disabled : Bool
deriving DecidableEq, Repr

/-- The render output of RetractVote: the menu item when poll data is
present and the current user's vote list is non-empty, null otherwise.
The disabled prop is the truthiness test is_disabled ? true : false. -/
def render (data : Option GetPollResponse) : Option MenuItem :=
  match data with
  | some d =>
      if d.message.current_user_votes.length > 0 then
        some { label := "Retract vote",
               disabled := if d.message.poll.is_disabled ≠ 0 then true else false }
      else none
  | none => none

end RetractVote

namespace ChatInput

/-- Hard-coded user id constant in ChatInput. -/
def user_id : String := "patiladitya781@gmail.com"

/-- Hard-coded channel id constant in ChatInput. -/
def channel_id : String := "862bf4d1ce"

/-- The fetch request onSubmit builds from the current text state:
fixed URL, fixed Authorization token header, JSON body with the constant
channel_id and user_id and the current text. -/
def sendMessageRequest (text : String) : HttpRequest :=
  { method := "POST",
    url := "http://localhost:8080/api/method/raven.messaging.doctype.message.message.send_message",
    authHeader := some "token 70fc5baf0dbedeb:153d36b83606c05",
    body := [("channel_id", channel_id), ("user_id", user_id), ("text", text)] }

/-- Resolution outcomes of the two awaited promises in onSubmit's chain:
the fetch itself and the addMessage callback. -/
structure SubmitEnv where
  fetchResolves : Bool
  addMessageResolves : Bool
deriving DecidableEq, Repr

/-- Result of an onSubmit invocation: the emitted effects, the text
state after the chain settles, and whether the chain rejected with no
catch handler attached. -/
structure SubmitResult where
  effects : List Effect
  text : String
  unhandledRejection : Bool
deriving DecidableEq, Repr

/-- onSubmit: fetch the send_message request, then (on resolution)
invoke addMessage with the current text and user_id, then (on its
resolution) clear the text state.  The chain has no catch handler, so a
rejection anywhere leaves the remaining steps unrun and the rejection
unhandled. -/
def onSubmit (text : String) (env : SubmitEnv) : SubmitResult :=
  if env.fetchResolves then
    if env.addMessageResolves then
      { effects := [Effect.fetchHttp (sendMessageRequest text),
                    Effect.invokeAddMessage text user_id,
                    Effect.setText ""],
        text := "", unhandledRejection := false }
    else
      { effects := [Effect.fetchHttp (sendMessageRequest text),
                    Effect.invokeAddMessage text user_id],
        text := text, unhandledRejection := true }
  else
    { effects := [Effect.fetchHttp (sendMessageRequest text)],
      text := text, unhandledRejection := true }

/-- The submit IconButton's isDisabled prop: text.length === 0. -/
def submitDisabled (text : String) : Bool := text.length == 0

/-- Clicking the submit button: nothing happens while the button is
disabled; otherwise the form's handleSubmit runs onSubmit (the form has
no registered fields, so validation always passes). -/
def clickSubmit (text : String) (env : SubmitEnv) : Option SubmitResult :=
  if submitDisabled text then none else some (onSubmit text env)

end ChatInput

namespace AddChannelMemberModal

/-- The form value type of AddChannelMemberModal: the single
list-valued field add_members. -/
structure FormProps where
  add_members : Option (List String)
deriving DecidableEq, Repr

/-- The defaultValues passed to useForm: add_members starts null. -/
def defaultValues : FormProps := { add_members := none }

/-- onSubmit: console.log the data and watched members, then onClose.
No network call, no state write. -/
def onSubmit (_data : FormProps) : List Effect :=
  [Effect.consoleLog, Effect.closeModal]

/-- The useEffect with dependency [isOpen, reset]: whenever isOpen
changes, reset() restores the form to its defaultValues; otherwise the
form state is untouched. -/
def isOpenEffect (prevIsOpen currIsOpen : Bool) (form : FormProps) : FormProps :=
  if prevIsOpen ≠ currIsOpen then defaultValues else form

/-- The effect also runs once on mount, resetting to defaultValues. -/
def mountForm : FormProps := defaultValues

end AddChannelMemberModal

/-- All effects any component of this fragment can emit across one
mount of RetractVote, one retract-vote click, one chat submit, and one
modal submit: the complete network surface of the code. -/
def allProgramEffects (msg : Message) (outcome : PromiseOutcome) (text : String)
    (env : ChatInput.SubmitEnv) (d : AddChannelMemberModal.FormProps) : List Effect :=
  RetractVote.mountEffects msg ++ (RetractVote.onRetractVote msg outcome).effects ++
    (ChatInput.onSubmit text env).effects ++ AddChannelMemberModal.onSubmit d

/-- The network-call surface the spec describes: get_poll and
retract_vote through the SDK session with no explicit token, and
send_message through fetch with the fixed Authorization token. -/
def networkCallTargets : Effect → Bool
  | Effect.sdkGet p _ _ tok =>
      p == "raven.api.raven_poll.get_poll" && tok == none
  | Effect.sdkPost p _ tok =>
      p == "raven.api.raven_poll.retract_vote" && tok == none
  | Effect.fetchHttp r =>
      r.url == "http://localhost:8080/api/method/raven.messaging.doctype.message.message.send_message"
        && r.authHeader == some "token 70fc5baf0dbedeb:153d36b83606c05"
  | _ => true

end Raven

namespace Raven

/-- Helper: a non-empty string has non-zero length, so the submit
button is enabled. -/
theorem submitDisabled_eq_false (text : String) (h : text ≠ "") :
    ChatInput.submitDisabled text = false := by
  cases text with
  | mk data =>
    cases data with
    | nil => exact absurd rfl h
    | cons c cs =>
      simp [ChatInput.submitDisabled, String.length]

/-- C1: clicking submit with non-empty text (and the fetch and
addMessage promises resolving) emits the send_message fetch, then
invokes the addMessage callback with the current text and the user id,
then clears the text state to the empty string. -/
theorem C1_chat_input_submit_sends_and_clears (text : String)
    (env : ChatInput.SubmitEnv) (hne : text ≠ "")
    (hf : env.fetchResolves = true) (ha : env.addMessageResolves = true) :
    ChatInput.clickSubmit text env =
      some { effects := [Effect.fetchHttp (ChatInput.sendMessageRequest text),
                         Effect.invokeAddMessage text ChatInput.user_id,
                         Effect.setText ""],
             text := "", unhandledRejection := false } := by
  simp [ChatInput.clickSubmit, submitDisabled_eq_false text hne,
    ChatInput.onSubmit, hf, ha]

theorem C1_chat_input_submit_sends_and_clears_witness :
    ChatInput.clickSubmit "hi" ⟨true, true⟩ =
      some { effects := [Effect.fetchHttp (ChatInput.sendMessageRequest "hi"),
                         Effect.invokeAddMessage "hi" ChatInput.user_id,
                         Effect.setText ""],
             text := "", unhandledRejection := false } :=
  C1_chat_input_submit_sends_and_clears "hi" ⟨true, true⟩ (by decide) rfl rfl

/-- C2 counterexample: when the send_message fetch rejects, ChatInput's
onSubmit chain (which has no catch handler) leaves the rejection
unhandled and emits no toast at all, refuting the claim that every
network call's error is caught and surfaced as a toast. -/
theorem C2_counterexample :
    (ChatInput.onSubmit "hi" ⟨false, true⟩).unhandledRejection = true ∧
      (ChatInput.onSubmit "hi" ⟨false, true⟩).effects.filter Effect.isToast = [] := by
  constructor <;> rfl

/-- C2 amended: the retract_vote call's error is caught at the call
site and surfaced as a toast (the chain never rejects unhandled), but
the ChatInput send_message fetch chain has no error handler: when the
fetch rejects, the rejection goes unhandled and no toast is shown. -/
theorem C2_amended_error_handling (msg : Message) (outcome : PromiseOutcome)
    (text : String) (env : ChatInput.SubmitEnv)
    (hf : env.fetchResolves = false) :
    (RetractVote.onRetractVote msg outcome).unhandledRejection = false ∧
      (RetractVote.onRetractVote msg PromiseOutcome.rejects).effects.filter
          Effect.isToast =
        [Effect.toast "Could not retract vote" "destructive" 800] ∧
      (ChatInput.onSubmit text env).unhandledRejection = true ∧
      (ChatInput.onSubmit text env).effects.filter Effect.isToast = [] := by
  cases env with
  | mk f a =>
    cases hf
    refine ⟨rfl, ?_, by cases a <;> rfl, by cases a <;> rfl⟩
    simp [RetractVote.onRetractVote, Effect.isToast]

theorem C2_amended_error_handling_witness :
    (RetractVote.onRetractVote ⟨"m1", "p1"⟩ PromiseOutcome.rejects).unhandledRejection = false ∧
      (RetractVote.onRetractVote ⟨"m1", "p1"⟩ PromiseOutcome.rejects).effects.filter
          Effect.isToast =
        [Effect.toast "Could not retract vote" "destructive" 800] ∧
      (ChatInput.onSubmit "hi" ⟨false, true⟩).unhandledRejection = true ∧
      (ChatInput.onSubmit "hi" ⟨false, true⟩).effects.filter Effect.isToast = [] :=
  C2_amended_error_handling ⟨"m1", "p1"⟩ PromiseOutcome.rejects "hi" ⟨false, true⟩ rfl

/-- C3: RetractVote renders the menu item iff poll data is fetched and
the current user's vote list is non-empty, and a click issues exactly
one network call, the mutating POST to raven.api.raven_poll.retract_vote
carrying the message's poll_id. -/
theorem C3_retract_vote_render_iff_and_single_post (data : Option GetPollResponse)
    (msg : Message) (outcome : PromiseOutcome) :
    ((RetractVote.render data).isSome ↔
        ∃ d, data = some d ∧ 0 < d.message.current_user_votes.length) ∧
      (RetractVote.onRetractVote msg outcome).effects.filter Effect.isNetworkCall =
        [Effect.sdkPost "raven.api.raven_poll.retract_vote"
          [("poll_id", msg.poll_id)] none] := by
  constructor
  · cases data with
    | none => simp [RetractVote.render]
    | some d =>
      by_cases h : 0 < d.message.current_user_votes.length
      · simp [RetractVote.render, h]
      · simp [RetractVote.render, h]
  · cases outcome <;> rfl

/-- C4: ChatInput posts exactly the current text to the one fixed
send_message endpoint: the only network call of a submit is the fetch
of sendMessageRequest text, whose body carries exactly that text and
whose URL is a constant independent of the text. -/
theorem C4_chat_input_posts_text_to_fixed_endpoint (text t1 t2 : String)
    (env : ChatInput.SubmitEnv) :
    (ChatInput.onSubmit text env).effects.filter Effect.isNetworkCall =
        [Effect.fetchHttp (ChatInput.sendMessageRequest text)] ∧
      (ChatInput.sendMessageRequest text).body =
        [("channel_id", "862bf4d1ce"), ("user_id", "patiladitya781@gmail.com"),
         ("text", text)] ∧
      (ChatInput.sendMessageRequest t1).url = (ChatInput.sendMessageRequest t2).url ∧
      (ChatInput.sendMessageRequest text).url =
        "http://localhost:8080/api/method/raven.messaging.doctype.message.message.send_message" := by
  refine ⟨?_, rfl, rfl, rfl⟩
  cases env with
  | mk f a => cases f <;> cases a <;> rfl

/-- C5: the AddChannelMemberModal submit handler only logs and closes
the modal: for every submitted form value it performs no network call
and no backend mutation. -/
theorem C5_add_member_submit_no_backend_call (d : AddChannelMemberModal.FormProps) :
    AddChannelMemberModal.onSubmit d = [Effect.consoleLog, Effect.closeModal] ∧
      (AddChannelMemberModal.onSubmit d).filter Effect.isNetworkCall = [] ∧
      (AddChannelMemberModal.onSubmit d).filter Effect.isMutatingCall = [] :=
  ⟨rfl, rfl, rfl⟩

/-- C6: across every handler of every component, each network call is
one of the three API paths with the stated authentication: get_poll and
retract_vote through the SDK session with no token header, send_message
through fetch with the fixed Authorization token; each of the three
occurs exactly once in the combined trace, and the send_message URL is
the API-method base followed by its dotted path. -/
theorem C6_network_surface (msg : Message) (outcome : PromiseOutcome)
    (text : String) (env : ChatInput.SubmitEnv) (d : AddChannelMemberModal.FormProps) :
    (allProgramEffects msg outcome text env d).all networkCallTargets = true ∧
      (allProgramEffects msg outcome text env d).countP Effect.isNetworkCall = 3 ∧
      (ChatInput.sendMessageRequest text).url =
        "http://localhost:8080/api/method/" ++
          "raven.messaging.doctype.message.message.send_message" := by
  refine ⟨?_, ?_, rfl⟩ <;>
    cases env with
    | mk f a =>
      cases outcome <;> cases f <;> cases a <;> rfl

/-- C7: each UI handler issues its network call exactly once per
invocation, also when the call fails: no retry or re-issue appears in
any trace, and the modal submit issues none. -/
theorem C7_single_issue_no_retry (msg : Message) (outcome : PromiseOutcome)
    (text : String) (env : ChatInput.SubmitEnv) (d : AddChannelMemberModal.FormProps) :
    (RetractVote.onRetractVote msg outcome).effects.countP Effect.isNetworkCall = 1 ∧
      (ChatInput.onSubmit text env).effects.countP Effect.isNetworkCall = 1 ∧
      (AddChannelMemberModal.onSubmit d).countP Effect.isNetworkCall = 0 := by
  refine ⟨?_, ?_, rfl⟩
  · cases outcome <;> rfl
  · cases env with
    | mk f a => cases f <;> cases a <;> rfl

/-- C8: whenever the menu item is rendered, its disabled prop is true
exactly when the fetched poll's is_disabled flag is non-zero (truthy)
and false when the flag is zero (falsy). -/
theorem C8_menu_item_disabled_tracks_flag (resp : GetPollResponse)
    (h : 0 < resp.message.current_user_votes.length) :
    (resp.message.poll.is_disabled ≠ 0 →
        RetractVote.render (some resp) = some ⟨"Retract vote", true⟩) ∧
      (resp.message.poll.is_disabled = 0 →
        RetractVote.render (some resp) = some ⟨"Retract vote", false⟩) := by
  constructor <;> intro hd <;> simp [RetractVote.render, h, hd]

theorem C8_menu_item_disabled_tracks_flag_witness :
    RetractVote.render (some ⟨⟨⟨1⟩, ["v1"]⟩⟩) = some ⟨"Retract vote", true⟩ ∧
      RetractVote.render (some ⟨⟨⟨0⟩, ["v1"]⟩⟩) = some ⟨"Retract vote", false⟩ :=
  ⟨(C8_menu_item_disabled_tracks_flag ⟨⟨⟨1⟩, ["v1"]⟩⟩ (by decide)).1 (by decide),
   (C8_menu_item_disabled_tracks_flag ⟨⟨⟨0⟩, ["v1"]⟩⟩ (by decide)).2 rfl⟩

/-- C9: whenever the isOpen prop changes, the useEffect resets the form
to its default values, whose add_members field is null, so no selection
from a previous open survives; the form also mounts at the defaults. -/
theorem C9_modal_resets_on_open_change (prev curr : Bool)
    (form : AddChannelMemberModal.FormProps) (h : prev ≠ curr) :
    AddChannelMemberModal.isOpenEffect prev curr form =
        AddChannelMemberModal.defaultValues ∧
      (AddChannelMemberModal.isOpenEffect prev curr form).add_members = none ∧
      AddChannelMemberModal.mountForm.add_members = none := by
  refine ⟨?_, ?_, rfl⟩ <;> simp [AddChannelMemberModal.isOpenEffect, h]
  rfl

theorem C9_modal_resets_on_open_change_witness :
    AddChannelMemberModal.isOpenEffect false true ⟨some ["a"]⟩ =
        AddChannelMemberModal.defaultValues ∧
      (AddChannelMemberModal.isOpenEffect false true ⟨some ["a"]⟩).add_members = none ∧
      AddChannelMemberModal.mountForm.add_members = none :=
  C9_modal_resets_on_open_change false true ⟨some ["a"]⟩ (by decide)

/-- C10: the send_message request depends only on the text state: for a
fixed text the network calls of a submit are the same whatever the
promise outcomes, and the request's Authorization header, channel_id,
user_id and URL are hard-coded constants. -/
theorem C10_request_depends_only_on_text (t : String)
    (env1 env2 : ChatInput.SubmitEnv) :
    (ChatInput.onSubmit t env1).effects.filter Effect.isNetworkCall =
        [Effect.fetchHttp (ChatInput.sendMessageRequest t)] ∧
      (ChatInput.onSubmit t env2).effects.filter Effect.isNetworkCall =
        (ChatInput.onSubmit t env1).effects.filter Effect.isNetworkCall ∧
      (ChatInput.sendMessageRequest t).authHeader =
        some "token 70fc5baf0dbedeb:153d36b83606c05" ∧
      (ChatInput.sendMessageRequest t).body =
        [("channel_id", ChatInput.channel_id), ("user_id", ChatInput.user_id),
         ("text", t)] ∧
      ChatInput.channel_id = "862bf4d1ce" ∧
      ChatInput.user_id = "patiladitya781@gmail.com" := by
  have h1 : ∀ env : ChatInput.SubmitEnv,
      (ChatInput.onSubmit t env).effects.filter Effect.isNetworkCall =
        [Effect.fetchHttp (ChatInput.sendMessageRequest t)] := by
    intro env
    cases env with
    | mk f a => cases f <;> cases a <;> rfl
  exact ⟨h1 env1, by rw [h1 env1, h1 env2], rfl, rfl, rfl, rfl⟩

end Raven
